import Mathlib

/-!
Verification development for the WhatsApp rent-onboarding bot
(conversation orchestration engine).

The definitions below are a shallow embedding of the Python source:

* `app/models/tenant.py` — enums and record shapes;
* `app/services/conversation_flow_service.py` — tenant orchestrator,
  session manager, tenant document sequencer;
* `app/services/guarantor_conversation_service.py` — guarantor
  orchestrator and completion fan-in coordinator;
* `app/services/guarantor_service.py` — guarantor upsert and
  completion check;
* `app/services/vertex_ai_service.py` — validation gateway adapter
  (structured-result precedence and the rule-based fallback).

Python dictionaries are modelled as ordered association lists
(`List (String × PyVal)`), datetimes as integer epoch seconds,
and external I/O (model calls, message delivery, storage writes)
as explicit parameters or effect descriptors returned by the
embedded functions.
-/

namespace RentBot

/-- A JSON-like Python value as stored in `context_data` /
`parsed_data` dictionaries. -/
inductive PyVal
  | vNull
  | vBool (b : Bool)
  | vStr (s : String)
  | vInt (n : Int)
  deriving DecidableEq, Repr

/-- An ordered Python dict with string keys. -/
abbrev PyDict := List (String × PyVal)

/-- Python `d.get(k)` / `d[k]`: value at the first occurrence of the
key, `none` when absent. -/
def dictLookup (d : PyDict) (k : String) : Option PyVal :=
  match d with
  | [] => none
  | (k', v) :: rest => if k' = k then some v else dictLookup rest k

/-- Python dict spread `{**d, k: v}` with one overriding key:
replaces the value at `k` in place when the key is present, appends
`(k, v)` at the end otherwise.  (Keys of the dicts built by the
engine are unique, so replacing the first occurrence is exactly
Python's behaviour.) -/
def dictInsert (d : PyDict) (k : String) (v : PyVal) : PyDict :=
  match d with
  | [] => [(k, v)]
  | (k', v') :: rest =>
    if k' = k then (k, v) :: rest else (k', v') :: dictInsert rest k v

/-! ## Enumerations (`app/models/tenant.py`) -/

/-- Enum `DocumentType` from `app/models/tenant.py`. -/
inductive DocumentType
  | id_card
  | sephach
  | payslips
  | pnl
  | bank_statements
  deriving DecidableEq, Repr

/-- The string `.value` of each `DocumentType` member. -/
def DocumentType.value : DocumentType → String
  | .id_card => "id_card"
  | .sephach => "sephach"
  | .payslips => "payslips"
  | .pnl => "pnl"
  | .bank_statements => "bank_statements"

/-- Enum `ConversationState` from `app/models/tenant.py` (tenant flow). -/
inductive ConversationState
  | GREETING
  | CONFIRMATION
  | PERSONAL_INFO
  | DOCUMENTS
  | GUARANTOR_1
  | GUARANTOR_2
  | COMPLETED
  deriving DecidableEq, Repr

/-- Enum `WhatsAppStatus` from `app/models/tenant.py`. -/
inductive WhatsAppStatus
  | not_started
  | in_progress
  | completed
  | stuck
  deriving DecidableEq, Repr

/-- The occupation classification produced by
`_analyze_occupation_for_document_type`: the AI call (with its
keyword fallback) returns `PNL` for a self-employed occupation and
`PAYSLIPS` otherwise.  The classification itself is done by the
external gateway; the engine only consumes this binary outcome. -/
inductive OccupationClass
  | salaried
  | selfEmployed
  deriving DecidableEq, Repr

/-- Embeds `_analyze_occupation_for_document_type`
(`conversation_flow_service.py:585`): maps a classified occupation
to the financial document it requires — `PNL` for self-employed,
`PAYSLIPS` for salaried. -/
def analyze_occupation_for_document_type : OccupationClass → DocumentType
  | .selfEmployed => DocumentType.pnl
  | .salaried => DocumentType.payslips

/-! ## Tenant document sequencer
(`conversation_flow_service.py:552`, `_get_next_document`) -/

/-- The `base_sequence` list built inside `_get_next_document`:
`[ID_CARD, SEPHACH]`, then the occupation-dependent financial
document (`PAYSLIPS` by default when occupation is unknown), then
`BANK_STATEMENTS`. -/
def tenant_base_sequence (occ : Option OccupationClass) : List DocumentType :=
  [DocumentType.id_card, DocumentType.sephach] ++
    [match occ with
     | some c => analyze_occupation_for_document_type c
     | none => DocumentType.payslips] ++
    [DocumentType.bank_statements]

/-- Python `list.index`, with `ValueError` as `none`: index of the
first occurrence. -/
def listIndex {α : Type} [DecidableEq α] (l : List α) (a : α) : Option Nat :=
  match l with
  | [] => none
  | b :: bs => if b = a then some 0 else (listIndex bs a).map (· + 1)

/-- Embeds `_get_next_document`: looks up `current_document` in the base
sequence and returns its successor; returns `None` past the end, and
also returns `None` when `list.index` raises `ValueError` (the
`except ValueError: return None` branch). -/
def get_next_document (current : DocumentType) (occ : Option OccupationClass) :
    Option DocumentType :=
  match listIndex (tenant_base_sequence occ) current with
  | some i =>
    if i + 1 < (tenant_base_sequence occ).length then
      (tenant_base_sequence occ).get? (i + 1)
    else none
  | none => none

/-! ## Guarantor document sequencer
(`guarantor_conversation_service.py:370`, `_get_next_guarantor_document`) -/

/-- The `document_sequence` list of `_get_next_guarantor_document`. -/
def guarantor_document_sequence : List String :=
  ["id_card", "sephach", "payslips", "bank_statements", "pnl"]

/-- Embeds `_get_next_guarantor_document`: successor in the fixed sequence;
`None` past the end; and on `ValueError` (current document not in
the sequence) returns `"id_card"` — the source comment reads
`Default to first document`. -/
def get_next_guarantor_document (current : String) : Option String :=
  match listIndex guarantor_document_sequence current with
  | some i =>
    if i + 1 < guarantor_document_sequence.length then
      guarantor_document_sequence.get? (i + 1)
    else none
  | none => some "id_card"

/-! ## String utilities

Python `in` on strings is substring containment; `" ".join(l)` is
space-intercalation.  Both are modelled over the character list of a
`String`. -/

/-- Pattern `pat` occurs as a prefix of `s` (character-wise). -/
def listIsPrefix : List Char → List Char → Bool
  | [], _ => true
  | _ :: _, [] => false
  | a :: as, b :: bs => a == b && listIsPrefix as bs

/-- Python `pat in s` on strings: `pat` occurs contiguously in `s`. -/
def listContains (s pat : List Char) : Bool :=
  match s with
  | [] => pat.isEmpty
  | _ :: rest => listIsPrefix pat s || listContains rest pat

/-- Python `pat in s` lifted to `String`. -/
def strContains (s pat : String) : Bool :=
  listContains s.data pat.data

/-- Python `" ".join(l)`. -/
def joinSpace : List String → String
  | [] => ""
  | [a] => a
  | a :: rest => a ++ " " ++ joinSpace rest

/-! ## Document validation outcome (normalized shape)

The adapter (`document_ai_service.process_document` /
`process_guarantor_document`) returns a dict whose
`validation_result` carries `is_valid`, `errors`, `warnings`.  The
claims only concern how the orchestrators consume this shape, so the
external validation itself is a parameter. -/

structure DocValidationOutcome where
  is_valid : Bool
  errors : List String
  warnings : List String
  deriving DecidableEq, Repr

/-! ## Tenant orchestrator: document upload
(`conversation_flow_service.py:472`, `_process_document_upload`) -/

/-- Embeds `_get_document_request_message` (`conversation_flow_service.py:625`). -/
def get_document_request_message (document_type : String) : String :=
  if document_type = "id_card" then
    "אנא שלח את תמונת תעודת הזהות שלך (Teudat Zehut)."
  else if document_type = "sephach" then
    "אנא שלח את הטופס ספח (Sephach)."
  else if document_type = "payslips" then
    "אנא שלח את 3 תלושי השכר האחרונים שלך (כקובץ PDF או תמונות)."
  else if document_type = "pnl" then
    "אנא שלח את דוח רווח והפסד (PNL) החתום על ידי רואה חשבון."
  else if document_type = "bank_statements" then
    "אנא שלח את דוחות הבנק של 3 החודשים האחרונים."
  else
    "אנא שלח את המסמך הנדרש."

/-- The state-transition outcome of a tenant document upload:
which `_update_conversation_state` call is made (`none` = the
conversation state is left unchanged) and the response text. -/
structure TenantUploadStep where
  newState : Option (ConversationState × PyDict)
  response : String
  deriving DecidableEq, Repr

/-- Embeds `_process_document_upload` after the external validation
returned (`conversation_flow_service.py:503`–`546`).
`document_type` is the document being processed (after the optional
type auto-detection), `occ` the tenant's occupation classification
as resolved from the stored occupation, `ctx` the conversation's
`context_data`.  The ID-number extraction side effect (tenant-table
write on a validated ID card) does not touch the conversation state
and is not modelled here. -/
def process_document_upload (document_type : DocumentType)
    (occ : Option OccupationClass) (vr : DocValidationOutcome)
    (ctx : PyDict) : TenantUploadStep :=
  if vr.is_valid then
    match get_next_document document_type occ with
    | some nd =>
      { newState := some (ConversationState.DOCUMENTS,
          dictInsert ctx "current_document" (PyVal.vStr nd.value)),
        response := "מעולה! " ++ document_type.value ++ " התקבל ואושר. " ++
          get_document_request_message nd.value }
    | none =>
      { newState := some (ConversationState.GUARANTOR_1,
          dictInsert ctx "current_guarantor" (PyVal.vInt 1)),
        response := "מעולה! כל המסמכים התקבלו ואושרו. עכשיו נצטרך מידע על הערבים.\n\nאנא שלח את השם ומספר הטלפון של הערב הראשון." }
  else
    if vr.errors.any (fun e => strContains e "doesn\x27t match expected") then
      { newState := none,
        response := "תעודת הזהות לא אושרה כי השם במסמך לא תואם לשם שלך במערכת.\n\nאנא וודא ששלחת את התעודת הזהות הנכונה.\n\nאם זה השם הנכון, אנא פנה לצוות התמיכה." }
    else if vr.errors.any (fun e => strContains e "ID number") then
      { newState := none,
        response := "תעודת הזהות לא אושרה כי מספר הזהות לא תקין.\n\nאנא וודא שהתמונה ברורה ושלח שוב." }
    else
      { newState := none,
        response := "המסמך לא אושר. " ++ joinSpace vr.errors ++
          "\n\nאנא שלח שוב את " ++ document_type.value ++ "." }

/-! ## Guarantor orchestrator: documents handler
(`guarantor_conversation_service.py:213`, `_handle_guarantor_documents`) -/

/-- One externally observable call made by the guarantor
orchestrator, in program order. -/
inductive GEffect
  | sendToGuarantor (msg : String)
  | updateDocumentsStatus (document : String) (status : String)
  | updateConversationState (state : String) (ctx : PyDict)
  | updateGuarantorStatus (status : String)
  | invokeFanIn (tenant_id : String)
  deriving DecidableEq, Repr

/-- Return value + effect trace of `_handle_guarantor_documents`. -/
structure GuarantorDocsResult where
  effects : List GEffect
  success : Bool
  message : String
  deriving DecidableEq, Repr

/-- The `document_name_map` literal used in
`_handle_guarantor_documents` (`.get` with the document itself as
default). -/
def document_name_map (d : String) : String :=
  if d = "id_card" then "תעודת הזהות"
  else if d = "sephach" then "הספח"
  else if d = "payslips" then "תלושי המשכורת"
  else if d = "bank_statements" then "דוח הבנק"
  else if d = "pnl" then "דוח רווח והפסד"
  else d

/-- Embeds `_handle_guarantor_documents`
(`guarantor_conversation_service.py:213`–`368`), with the external
document validation given as `vr` and the conversation's
`context_data` as `ctx`.  Note the COMPLETED branch (source lines
313–341): it sends a completion message to the guarantor, sets the
guarantor conversation state to COMPLETED and the guarantor status
to `completed`, and returns — it makes no call to
`_check_all_guarantors_completed` (that call exists only inside
`_send_guarantor_completion_message`, line 547, which no code path
invokes). -/
def handle_guarantor_documents (isMediaMessage : Bool)
    (current_document : String) (ctx : PyDict)
    (vr : DocValidationOutcome) : GuarantorDocsResult :=
  if isMediaMessage then
    if vr.is_valid then
      match get_next_guarantor_document current_document with
      | some nd =>
        { effects := [GEffect.updateDocumentsStatus current_document "validated",
            GEffect.updateConversationState "DOCUMENTS"
              (dictInsert ctx "current_document" (PyVal.vStr nd))],
          success := true,
          message := "Document " ++ current_document ++
            " approved, next document " ++ nd ++ " requested" }
      | none =>
        { effects := [GEffect.updateDocumentsStatus current_document "validated",
            GEffect.sendToGuarantor ("מעולה! " ++ document_name_map current_document ++
              " התקבל ואושר. כל המסמכים הושלמו בהצלחה!"),
            GEffect.updateConversationState "COMPLETED"
              [("all_documents_collected", PyVal.vBool true)],
            GEffect.updateGuarantorStatus "completed"],
          success := true,
          message := "All documents collected, guarantor completed" }
    else
      { effects := [],
        success := false,
        message := "המסמך לא אושר. " ++
          (if vr.errors.isEmpty then "" else joinSpace vr.errors) ++
          (if vr.warnings.isEmpty then "" else " " ++ joinSpace vr.warnings) ++
          " אנא שלח שוב את " ++ current_document ++ "." }
  else
    { effects := [],
      success := false,
      message := "אנא שלח מסמך (תמונה או PDF)." }

/-! ## Guarantor records and the completion fan-in coordinator
(`guarantor_service.py`, `guarantor_conversation_service.py:568`) -/

/-- A row of the `guarantors` table (fields the engine reads).
`documents_status` keeps only each document's `status` field. -/
structure GuarantorRec where
  id : String
  tenant_id : String
  guarantor_number : Int
  full_name : String
  phone_number : String
  email : Option String
  whatsapp_status : String
  documents_status : List (String × String)
  deriving DecidableEq, Repr

/-- Lookup in a `documents_status` map. -/
def docStatus (ds : List (String × String)) (k : String) : Option String :=
  match ds with
  | [] => none
  | (k', v) :: rest => if k' = k then some v else docStatus rest k

/-- The `required_docs` list of `check_guarantor_completion`
(`guarantor_service.py:275`). -/
def required_docs : List String :=
  ["id_card", "sephach", "payslips", "pnl", "bank_statements"]

/-- Per-guarantor completion as computed inside
`check_guarantor_completion`: count the required documents whose
status is `validated` and compare with the required count. -/
def guarantor_is_completed (g : GuarantorRec) : Bool :=
  required_docs.length ≤
    (required_docs.countP (fun d => docStatus g.documents_status d = some "validated"))

/-- Embeds `check_guarantor_completion` (`guarantor_service.py:257`):
`(all_completed, completed_count, total_count)`.  An empty guarantor
list yields `all_completed = false`. -/
def check_guarantor_completion (guarantors : List GuarantorRec) :
    Bool × Nat × Nat :=
  if guarantors.isEmpty then (false, 0, 0)
  else
    let completed := guarantors.countP guarantor_is_completed
    (completed = guarantors.length, completed, guarantors.length)

/-- Effects of one invocation of the fan-in coordinator. -/
structure FanInStep where
  tenantNotificationsSent : Nat
  tenantStatusUpdate : Option String
  deriving DecidableEq, Repr

/-- Embeds `_check_all_guarantors_completed`
(`guarantor_conversation_service.py:568`): when
`check_guarantor_completion` reports all completed and the tenant
row is found, it sends the tenant-facing completion message and sets
`whatsapp_status` to `completed`.  The function consults no
previously-notified marker: its effects depend only on the current
guarantor rows. -/
def check_all_guarantors_completed (guarantors : List GuarantorRec)
    (tenantFound : Bool) : FanInStep :=
  if (check_guarantor_completion guarantors).1 ∧ tenantFound then
    { tenantNotificationsSent := 1, tenantStatusUpdate := some "completed" }
  else
    { tenantNotificationsSent := 0, tenantStatusUpdate := none }

/-- Embeds `_send_guarantor_completion_message`
(`guarantor_conversation_service.py:547`): the only place that
invokes `_check_all_guarantors_completed`.  No code in the
repository calls this function, so the fan-in invocation below is
dead code. -/
def send_guarantor_completion_message_effects (g : GuarantorRec)
    (tenant_full_name tenant_property : String) : List GEffect :=
  [GEffect.sendToGuarantor ("מעולה! כל המסמכים התקבלו ואושרו.\n\nאתה ערב עבור " ++
      tenant_full_name ++ " ב-" ++ tenant_property ++ ".\n\nהתהליך הושלם בהצלחה!"),
   GEffect.invokeFanIn g.tenant_id]

/-! ## Guarantor upsert (`guarantor_service.py:26`, `create_guarantor`) -/

/-- Embeds `get_guarantors_by_tenant` (`guarantor_service.py:159`). -/
def get_guarantors_by_tenant (store : List GuarantorRec)
    (tenant_id : String) : List GuarantorRec :=
  store.filter (fun g => g.tenant_id = tenant_id)

/-- Result of `create_guarantor`: the updated store plus the
returned dict (`success`, the guarantor id, `was_existing`). -/
structure CreateGuarantorResult where
  store : List GuarantorRec
  success : Bool
  guarantor_id : String
  was_existing : Bool
  deriving DecidableEq, Repr

/-- Field update applied by the upsert path: `update_guarantor`
drops `None` values (`supabase_service.py:360`), so `email` is only
overwritten when provided. -/
def applyGuarantorUpdate (h : GuarantorRec) (full_name phone_number : String)
    (email : Option String) : GuarantorRec :=
  { h with full_name := full_name, phone_number := phone_number,
           email := match email with | some e => some e | none => h.email }

/-- The fresh record inserted by `create_guarantor` when the
(tenant, number) pair does not yet exist
(`guarantor_service.py:65`–`76`). -/
def freshGuarantor (tenant_id : String) (guarantor_number : Int)
    (full_name phone_number : String) (email : Option String)
    (fresh_id : String) : GuarantorRec :=
  { id := fresh_id, tenant_id := tenant_id,
    guarantor_number := guarantor_number, full_name := full_name,
    phone_number := phone_number, email := email,
    whatsapp_status := "not_started", documents_status := [] }

/-- Embeds `create_guarantor` (`guarantor_service.py:26`–`97`): scans the
tenant's guarantors for the same `guarantor_number`; if found,
updates that record in place (`was_existing = true`); otherwise
inserts a fresh record with `whatsapp_status = "not_started"` and
empty `documents_status` (`was_existing = false`).  The
tenant-table back-link (`_link_guarantor_to_tenant`) does not touch
the guarantor store and is not modelled. -/
def create_guarantor (store : List GuarantorRec) (tenant_id : String)
    (guarantor_number : Int) (full_name phone_number : String)
    (email : Option String) (fresh_id : String) : CreateGuarantorResult :=
  match (get_guarantors_by_tenant store tenant_id).find?
      (fun g => g.guarantor_number = guarantor_number) with
  | some g =>
    { store := store.map (fun h =>
        if h.id = g.id then applyGuarantorUpdate h full_name phone_number email
        else h),
      success := true, guarantor_id := g.id, was_existing := true }
  | none =>
    { store := store ++
        [freshGuarantor tenant_id guarantor_number full_name phone_number
          email fresh_id],
      success := true, guarantor_id := fresh_id, was_existing := false }

/-! ## Tenant orchestrator: guarantor slots
(`conversation_flow_service.py:637`, `_handle_guarantor_state`) -/

/-- Observable outcome of `_handle_guarantor_state` once the
guarantor-creation call has returned: the tenant conversation-state
update, the initialization of the new guarantor's conversation
(performed by `_send_guarantor_collection_message`, which sets the
guarantor's state to `DOCUMENTS` with `current_document = id_card`),
the guarantor status update, and the response text. -/
structure GuarantorStateStep where
  newTenantState : Option (ConversationState × PyDict)
  guarantorConvInit : Option (String × PyDict)
  guarantorStatusSet : Option String
  response : String
  deriving DecidableEq, Repr

/-- Embeds `_handle_guarantor_state`
(`conversation_flow_service.py:637`–`753`) from the point where
`create_guarantor` has been called.  The earlier
parse-failure/tenant-not-found returns update no state and are
represented by `creationSucceeded = false` together with the
pre-creation early returns they share (none of them writes any
state).  `guarantor_num` is 1 in state `GUARANTOR_1` and 2 in
`GUARANTOR_2`; `ctx` is the tenant conversation's `context_data`. -/
def handle_guarantor_state (guarantor_num : Nat) (creationSucceeded : Bool)
    (errorText : String) (guarantor_id : String) (was_existing : Bool)
    (tenant_full_name : String) (ctx : PyDict) : GuarantorStateStep :=
  if creationSucceeded then
    let collectInit : String × PyDict :=
      ("DOCUMENTS", [("current_document", PyVal.vStr "id_card"),
                     ("tenant_name", PyVal.vStr tenant_full_name)])
    if guarantor_num = 1 then
      { newTenantState := some (ConversationState.GUARANTOR_2,
          dictInsert (dictInsert ctx "current_guarantor" (PyVal.vInt 2))
            "guarantor1_id" (PyVal.vStr guarantor_id)),
        guarantorConvInit := some collectInit,
        guarantorStatusSet := some "in_progress",
        response := if was_existing then
            "פרטי הערב הראשון עודכנו ונשלח הודעה לערב. עכשיו אנא שלח את השם ומספר הטלפון של הערב השני."
          else
            "תודה! פרטי הערב הראשון התקבלו ונשלח הודעה לערב. עכשיו אנא שלח את השם ומספר הטלפון של הערב השני." }
    else if guarantor_num = 2 then
      { newTenantState := some (ConversationState.COMPLETED,
          dictInsert (dictInsert ctx "guarantor2_id" (PyVal.vStr guarantor_id))
            "process_completed" (PyVal.vBool true)),
        guarantorConvInit := some collectInit,
        guarantorStatusSet := some "in_progress",
        response := if was_existing then
            "מעולה! פרטי הערב השני עודכנו. שני הערבים קיבלו הודעות ונשלחו אליהם הוראות לשליחת המסמכים. התהליך הושלם בהצלחה!"
          else
            "מעולה! כל הפרטים התקבלו. שני הערבים קיבלו הודעות ונשלחו אליהם הוראות לשליחת המסמכים. התהליך הושלם בהצלחה!" }
    else
      -- the dispatcher only ever passes 1 or 2; for any other number the
      -- Python function falls off the if/elif chain and returns None
      { newTenantState := none,
        guarantorConvInit := some collectInit,
        guarantorStatusSet := some "in_progress",
        response := "" }
  else
    { newTenantState := none, guarantorConvInit := none,
      guarantorStatusSet := none,
      response := "שגיאה ביצירת ערב: " ++ errorText }

/-! ## Conversation session manager
(`conversation_flow_service.py:41`, `handle_incoming_message`) -/

/-- A row of `conversation_states` (tenant conversations).
`last_message_time` is in epoch seconds. -/
structure ConvState where
  current_state : ConversationState
  context_data : PyDict
  last_message_time : Option Int
  deriving DecidableEq, Repr

/-- A row of `guarantor_conversation_states`. -/
structure GuarantorConvState where
  current_state : String
  context_data : PyDict
  last_message_time : Option Int
  deriving DecidableEq, Repr

/-- Embeds `_is_conversation_timed_out` (`conversation_flow_service.py:123`):
missing `last_message_time` never times out; otherwise the state is
timed out iff `last_message_time < now - timeout_hours`. -/
def is_conversation_timed_out (timeout_hours now : Int) (cs : ConvState) : Bool :=
  match cs.last_message_time with
  | none => false
  | some t => t < now - timeout_hours * 3600

/-- The fresh state built by `_get_or_create_conversation_state`
(`conversation_flow_service.py:110`): `GREETING`, empty
`context_data`, `last_message_time = now`. -/
def freshConversationState (now : Int) : ConvState :=
  { current_state := ConversationState.GREETING, context_data := [],
    last_message_time := some now }

/-- The conversation under which the inbound message is processed. -/
inductive SessionRoute
  | guarantorFlow (gstate : Option GuarantorConvState)
  | tenantFlow (state : ConvState) (wasReset : Bool)
  deriving DecidableEq, Repr

/-- The session-management prefix of `handle_incoming_message`
(`conversation_flow_service.py:41`–`99`).  A sender whose phone
matches a guarantor record is routed to the guarantor flow with its
stored `guarantor_conversation_states` row as-is — no timeout check
and no reset happen on that branch.  A tenant sender gets its
conversation state loaded (or freshly created); when timed out, the
row is deleted (`_reset_conversation_state`) and re-created fresh
before the message is handled. -/
def handle_incoming_message_route (guarantorMatch : Bool)
    (gstate : Option GuarantorConvState) (tstate : Option ConvState)
    (timeout_hours now : Int) : SessionRoute :=
  if guarantorMatch then
    SessionRoute.guarantorFlow gstate
  else
    let cs := tstate.getD (freshConversationState now)
    if is_conversation_timed_out timeout_hours now cs then
      SessionRoute.tenantFlow (freshConversationState now) true
    else
      SessionRoute.tenantFlow cs false

/-! ## Validation gateway adapter
(`vertex_ai_service.py:220`, `_call_vertex_ai_model`;
`vertex_ai_service.py:264`, `_validate_response_rules_fallback`) -/

/-- The adapter's normalized free-text outcome.  `confidenceTenths`
holds the source's float confidence scaled by 10 (all literals in
the source are multiples of 0.1). -/
structure ValidationResult where
  is_valid : Bool
  feedback : String
  parsed_data : PyDict
  confidenceTenths : Nat
  deriving DecidableEq, Repr

/-- Characters of the group `([^"]*)` of the regex
`USER RESPONSE: "([^"]*)"`: the run up to the next quote, failing
when no closing quote follows. -/
def takeUntilQuote : List Char → Option (List Char)
  | [] => none
  | c :: rest =>
    if c = '"' then some [] else (takeUntilQuote rest).map (c :: ·)

/-- The regex marker `USER RESPONSE: "`. -/
def userResponseMarker : List Char := "USER RESPONSE: \"".data

/-- Models `re.search(r'USER RESPONSE: "([^"]*)"', prompt)`: first position
where the full pattern matches, returning the quoted group. -/
def searchUserResponse : List Char → Option (List Char)
  | [] => none
  | c :: rest =>
    if listIsPrefix userResponseMarker (c :: rest) then
      match takeUntilQuote ((c :: rest).drop userResponseMarker.length) with
      | some grp => some grp
      | none => searchUserResponse rest
    else searchUserResponse rest

/-- The user response extracted from the prompt by
`_validate_response_rules_fallback`. -/
def extract_user_response (prompt : String) : Option String :=
  (searchUserResponse prompt.data).map String.mk

/-- Python `str.lower()` restricted to ASCII letters (all keywords in
the source are ASCII or Hebrew, and Hebrew has no case). -/
def toLowerStr (s : String) : String :=
  String.mk (s.data.map Char.toLower)

/-- Python `str.strip()`: drop whitespace from both ends. -/
def pyStrip (s : String) : String :=
  String.mk
    (((s.data.dropWhile Char.isWhitespace).reverse.dropWhile
      Char.isWhitespace).reverse)

/-- The `status_map` dict of the family-status branch, in insertion
order. -/
def status_map : List (String × String) :=
  [("single", "רווק"), ("married", "נשוי"), ("divorced", "גרוש"),
   ("רווק", "רווק"), ("נשוי", "נשוי"), ("גרוש", "גרוש"), ("אלמן", "אלמן")]

/-- The `confirmation_words` list of the confirmation branch. -/
def confirmation_words : List String :=
  ["yes", "yeah", "yep", "sure", "ok", "alright", "correct", "right",
   "perfect", "sounds good", "that\x27s correct", "i confirm", "confirmed",
   "agreed", "looks good",
   "כן", "נכון", "אישור", "בסדר", "טוב", "מושלם", "נשמע טוב", "זה נכון",
   "אני מאשר"]

/-- The `rejection_words` list of the confirmation branch. -/
def rejection_words : List String :=
  ["no", "nope", "not", "wrong", "incorrect", "not right", "not correct",
   "change", "לא", "לא נכון", "שגוי", "לא מדויק", "לשנות", "לעדכן"]

/-- First maximal digit run of `re.findall(r'\d+', s)`. -/
def firstDigitRun : List Char → Option (List Char)
  | [] => none
  | c :: rest =>
    if c.isDigit then some (c :: rest.takeWhile Char.isDigit)
    else firstDigitRun rest

/-- Decimal value of a digit run (`int(numbers[0])`). -/
def digitsToNat (l : List Char) : Nat :=
  l.foldl (fun acc c => acc * 10 + (c.toNat - 48)) 0

/-- Embeds `_validate_response_rules_fallback`
(`vertex_ai_service.py:264`–`392`): extracts the user response from
the prompt, then branches on prompt markers — occupation, family
status, number of children — and otherwise treats the exchange as a
confirmation, keyword-matching the lowercased response. -/
def validate_response_rules_fallback (prompt : String) : ValidationResult :=
  match extract_user_response prompt with
  | none =>
    { is_valid := false,
      feedback := "לא הצלחתי להבין את התגובה. אנא נסה שוב.",
      parsed_data := [], confidenceTenths := 0 }
  | some raw =>
    let response := pyStrip raw
    let rl := toLowerStr response
    if strContains prompt "occupation" || strContains prompt "עיסוק" then
      if 3 ≤ response.length then
        { is_valid := true, feedback := "תודה על המידע על העיסוק",
          parsed_data := [("occupation", PyVal.vStr response)],
          confidenceTenths := 9 }
      else
        { is_valid := false, feedback := "אנא ספר לי על העיסוק שלך",
          parsed_data := [], confidenceTenths := 1 }
    else if strContains prompt "family_status" || strContains prompt "משפחתי" then
      match status_map.find? (fun kv => strContains rl kv.1) with
      | some kv =>
        { is_valid := true, feedback := "תודה על המידע על המצב המשפחתי",
          parsed_data := [("family_status", PyVal.vStr kv.2)],
          confidenceTenths := 9 }
      | none =>
        { is_valid := true, feedback := "תודה על המידע על המצב המשפחתי",
          parsed_data := [("family_status", PyVal.vStr response)],
          confidenceTenths := 8 }
    else if strContains prompt "number_of_children" || strContains prompt "ילדים" then
      match firstDigitRun response.data with
      | some ds =>
        { is_valid := true, feedback := "תודה על המידע על הילדים",
          parsed_data := [("number_of_children", PyVal.vInt (digitsToNat ds))],
          confidenceTenths := 9 }
      | none =>
        if ["אין", "ללא", "none", "zero"].any (fun w => strContains rl w) then
          { is_valid := true, feedback := "תודה על המידע",
            parsed_data := [("number_of_children", PyVal.vInt 0)],
            confidenceTenths := 9 }
        else
          { is_valid := false, feedback := "כמה ילדים יש לך? אנא ענה במספר",
            parsed_data := [], confidenceTenths := 1 }
    else
      if confirmation_words.any (fun w => strContains rl w) then
        { is_valid := true, feedback := "תודה על האישור",
          parsed_data := [("confirmed", PyVal.vBool true)],
          confidenceTenths := 9 }
      else if rejection_words.any (fun w => strContains rl w) then
        { is_valid := true, feedback := "הבנתי, מה צריך לשנות?",
          parsed_data := [("confirmed", PyVal.vBool false)],
          confidenceTenths := 9 }
      else
        { is_valid := true, feedback := "תודה על התגובה. אמשיך הלאה.",
          parsed_data := [("extracted_info",
            PyVal.vStr ("user said: " ++ response))],
          confidenceTenths := 7 }

/-- What the external model call produced, before the adapter's
precedence decision: an exception / empty reply / a reply that fails
JSON parsing (all of which the source routes to the fallback), or a
successfully parsed structured result. -/
inductive ModelReply
  | errored
  | noText
  | unparsable
  | parsed (result : ValidationResult)
  deriving DecidableEq, Repr

/-- The `SMART CHECK` condition of `_call_vertex_ai_model`
(`vertex_ai_service.py:248`): fall back iff `parsed_data` is empty,
or it has exactly one entry whose key is `confirmed` and whose value
is `None`. -/
def smart_check_triggers_fallback (pd : PyDict) : Bool :=
  pd.isEmpty || (pd.length = 1 && dictLookup pd "confirmed" = some PyVal.vNull)

/-- Embeds `_call_vertex_ai_model` (`vertex_ai_service.py:220`–`262`) after
the transport returned: trust a parsed structured result unless the
smart check fires; every other outcome goes to the rule-based
fallback. -/
def call_vertex_ai_model (reply : ModelReply) (prompt : String) :
    ValidationResult :=
  match reply with
  | ModelReply.parsed result =>
    if smart_check_triggers_fallback result.parsed_data then
      validate_response_rules_fallback prompt
    else result
  | _ => validate_response_rules_fallback prompt

/-- Modelled from the spec (claim C6 wording): fall back when
"`parsed_fields` is empty or its single field is null" — the null
check on the single field regardless of the field's name.  Stated
for comparison with `smart_check_triggers_fallback`. -/
def spec_fallback_condition (pd : PyDict) : Bool :=
  pd.isEmpty || (pd.length = 1 && (pd.head?.map Prod.snd) = some PyVal.vNull)

/-- A fully validated `documents_status` map (all five required
documents `validated`). -/
def allValidatedDocs : List (String × String) :=
  [("id_card", "validated"), ("sephach", "validated"),
   ("payslips", "validated"), ("pnl", "validated"),
   ("bank_statements", "validated")]

/-- Two guarantors of tenant `t1`, both with every required document
validated. -/
def twoCompletedGuarantors : List GuarantorRec :=
  [{ id := "g1", tenant_id := "t1", guarantor_number := 1,
     full_name := "G One", phone_number := "p1", email := none,
     whatsapp_status := "completed", documents_status := allValidatedDocs },
   { id := "g2", tenant_id := "t1", guarantor_number := 2,
     full_name := "G Two", phone_number := "p2", email := none,
     whatsapp_status := "completed", documents_status := allValidatedDocs }]

/-- A structured model result whose single parsed field is null but
is not named `confirmed`. -/
def trustedNullField : ValidationResult :=
  { is_valid := true, feedback := "fb",
    parsed_data := [("occupation", PyVal.vNull)], confidenceTenths := 9 }

/-- A confirmation-question prompt (no occupation / family-status /
children markers) carrying the user response `yes`. -/
def confPrompt : String :=
  "QUESTION: \"?\"\n USER RESPONSE: \"yes\"\n RULES"

/-- The (tenant, guarantor-number) slot predicate. -/
def slotPred (t : String) (n : Int) (g : GuarantorRec) : Bool :=
  decide (g.tenant_id = t) && decide (g.guarantor_number = n)

/-- Number of records occupying the (tenant, number) slot. -/
def slotCount (store : List GuarantorRec) (t : String) (n : Int) : Nat :=
  store.countP (slotPred t n)

/-- The in-place rewrite applied by `create_guarantor`'s update
path: touch only the record with id `i`. -/
def updIf (i name phone : String) (email : Option String)
    (h : GuarantorRec) : GuarantorRec :=
  if h.id = i then applyGuarantorUpdate h name phone email else h

/-- A one-guarantor store used to witness the upsert properties. -/
def witnessStore : List GuarantorRec :=
  [{ id := "g1", tenant_id := "t1", guarantor_number := 1,
     full_name := "Alice", phone_number := "p1", email := none,
     whatsapp_status := "in_progress", documents_status := [] }]

/-! # Proof development -/

/-- Keys are never removed by `dictInsert`: looking up any key other
than the inserted one gives the old value. -/
theorem dictInsert_lookup_ne (d : PyDict) (k k' : String) (v : PyVal)
    (hne : k' ≠ k) : dictLookup (dictInsert d k v) k' = dictLookup d k' := by
  have hne' : ¬ k = k' := fun hh => hne hh.symm
  induction d with
  | nil => simp [dictInsert, dictLookup, hne']
  | cons kv rest ih =>
    obtain ⟨k0, v0⟩ := kv
    by_cases hk : k0 = k
    · subst hk
      simp only [dictInsert, if_pos rfl, dictLookup]
      rw [if_neg hne', if_neg hne']
    · simp only [dictInsert, if_neg hk, dictLookup]
      by_cases hk' : k0 = k'
      · simp [hk']
      · rw [if_neg hk', if_neg hk']
        exact ih

/-- The inserted key is looked up to the inserted value. -/
theorem dictInsert_lookup_self (d : PyDict) (k : String) (v : PyVal) :
    dictLookup (dictInsert d k v) k = some v := by
  induction d with
  | nil => simp [dictInsert, dictLookup]
  | cons kv rest ih =>
    obtain ⟨k0, v0⟩ := kv
    by_cases hk : k0 = k
    · subst hk
      simp [dictInsert, dictLookup]
    · simp only [dictInsert, if_neg hk, dictLookup]
      exact ih

/-- Python `list.index` raises (here: `none`) exactly on absent elements. -/
theorem listIndex_eq_none_of_not_mem {α : Type} [DecidableEq α]
    (l : List α) (a : α) (h : a ∉ l) : listIndex l a = none := by
  induction l with
  | nil => rfl
  | cons b bs ih =>
    have hba : ¬ b = a := fun hb => h (hb ▸ List.mem_cons_self b bs)
    have has : a ∉ bs := fun hm => h (List.mem_cons_of_mem b hm)
    simp [listIndex, hba, ih has]

theorem listIsPrefix_refl (l : List Char) : listIsPrefix l l = true := by
  induction l with
  | nil => rfl
  | cons a as ih => simp [listIsPrefix, ih]

/-- A prefix match somewhere in `s` makes `listContains` true. -/
theorem listContains_of_isPrefix (s pat : List Char)
    (h : listIsPrefix pat s = true) : listContains s pat = true := by
  cases s with
  | nil => cases pat with
    | nil => rfl
    | cons a as => simp [listIsPrefix] at h
  | cons b bs => simp [listContains, h]

theorem listIsPrefix_append (pat s t : List Char)
    (h : listIsPrefix pat s = true) : listIsPrefix pat (s ++ t) = true := by
  induction pat generalizing s with
  | nil => rfl
  | cons a as ih =>
    cases s with
    | nil => simp [listIsPrefix] at h
    | cons b bs =>
      simp only [listIsPrefix, Bool.and_eq_true, beq_iff_eq] at h
      simp only [List.cons_append, listIsPrefix, Bool.and_eq_true, beq_iff_eq]
      exact ⟨h.1, ih bs h.2⟩

/-- Containment survives extending the string on the right. -/
theorem listContains_append_right (s t pat : List Char)
    (h : listContains s pat = true) : listContains (s ++ t) pat = true := by
  induction s with
  | nil =>
    simp only [listContains, List.isEmpty_iff] at h
    subst h
    cases t with
    | nil => rfl
    | cons c cs => simp [listContains, listIsPrefix]
  | cons b bs ih =>
    simp only [listContains, Bool.or_eq_true] at h
    rcases h with h | h
    · simp only [List.cons_append, listContains, Bool.or_eq_true]
      exact Or.inl (listIsPrefix_append pat (b :: bs) t h)
    · simp only [List.cons_append, listContains, Bool.or_eq_true]
      exact Or.inr (ih h)

/-- Containment survives extending the string on the left. -/
theorem listContains_append_left (s t pat : List Char)
    (h : listContains t pat = true) : listContains (s ++ t) pat = true := by
  induction s with
  | nil => simpa using h
  | cons b bs ih =>
    simp only [List.cons_append, listContains, Bool.or_eq_true]
    exact Or.inr ih

theorem listContains_refl (l : List Char) : listContains l l = true :=
  listContains_of_isPrefix l l (listIsPrefix_refl l)

theorem strContains_append_right (s t pat : String)
    (h : strContains s pat = true) : strContains (s ++ t) pat = true := by
  unfold strContains at *
  rw [String.data_append]
  exact listContains_append_right s.data t.data pat.data h

theorem strContains_append_left (s t pat : String)
    (h : strContains t pat = true) : strContains (s ++ t) pat = true := by
  unfold strContains at *
  rw [String.data_append]
  exact listContains_append_left s.data t.data pat.data h

theorem strContains_refl (s : String) : strContains s s = true :=
  listContains_refl s.data

/-- Every element of a list occurs verbatim in its space-join. -/
theorem strContains_joinSpace (l : List String) (e : String)
    (he : e ∈ l) : strContains (joinSpace l) e = true := by
  induction l with
  | nil => cases he
  | cons a rest ih =>
    cases rest with
    | nil =>
      rcases List.mem_singleton.mp he with rfl
      exact strContains_refl e
    | cons b bs =>
      rcases List.mem_cons.mp he with rfl | hmem
      · show strContains (e ++ " " ++ joinSpace (b :: bs)) e = true
        exact strContains_append_right _ _ _
          (strContains_append_right _ _ _ (strContains_refl e))
      · show strContains (a ++ " " ++ joinSpace (b :: bs)) e = true
        exact strContains_append_left _ _ _ (ih hmem)

/-! # Claim theorems -/

/-- C4: the Document Sequencer is a pure function — two calls of
`next_document` with the same (current document, occupation
classification) arguments return the same result, and for the tenant
sequence `next_document(BANK_STATEMENTS, occ) = None` for every
occupation classification `occ`. -/
theorem C4_sequencer_pure_and_terminal :
    (∀ (c : DocumentType) (occ : Option OccupationClass),
      get_next_document c occ = get_next_document c occ) ∧
    (∀ occ : Option OccupationClass,
      get_next_document DocumentType.bank_statements occ = none) := by
  refine ⟨fun c occ => rfl, fun occ => ?_⟩
  rcases occ with _ | c
  · decide
  · cases c <;> decide

/-- C8: the guarantor next-document function takes no occupation
input and follows the fixed order ID_CARD → SEPHACH → PAYSLIPS →
BANK_STATEMENTS, with PNL appended at the very end; each step is the
immediate successor (it never skips ahead of an acknowledged slot). -/
theorem C8_guarantor_sequence_fixed :
    guarantor_document_sequence =
      ["id_card", "sephach", "payslips", "bank_statements", "pnl"] ∧
    get_next_guarantor_document "id_card" = some "sephach" ∧
    get_next_guarantor_document "sephach" = some "payslips" ∧
    get_next_guarantor_document "payslips" = some "bank_statements" ∧
    get_next_guarantor_document "bank_statements" = some "pnl" ∧
    get_next_guarantor_document "pnl" = none := by
  refine ⟨rfl, ?_, ?_, ?_, ?_, ?_⟩ <;> decide

/-- C9 counterexample: for a malformed current document the
sequencers do not raise any `UnknownDocumentType` error — the
guarantor sequencer silently returns the first document `id_card`,
and the tenant sequencer silently returns `None`, at inputs that are
not members of the respective sequences. -/
theorem C9_counterexample :
    ("not_a_document" ∉ guarantor_document_sequence ∧
      get_next_guarantor_document "not_a_document" = some "id_card") ∧
    (DocumentType.pnl ∉ tenant_base_sequence none ∧
      get_next_document DocumentType.pnl none = none) := by
  refine ⟨⟨?_, ?_⟩, ?_, ?_⟩ <;> decide

/-- C9 amended: `next_document` returns end-of-sequence (`None`)
when given the last document of each sequence and never raises at
all: for a current document outside the sequence the tenant
sequencer returns `None` (treated as end-of-sequence) and the
guarantor sequencer returns `id_card` (a restart at the first
document); no `UnknownDocumentType` error exists. -/
theorem C9_amended :
    (∀ occ : Option OccupationClass,
      get_next_document DocumentType.bank_statements occ = none) ∧
    get_next_guarantor_document "pnl" = none ∧
    (∀ (d : DocumentType) (occ : Option OccupationClass),
      d ∉ tenant_base_sequence occ → get_next_document d occ = none) ∧
    (∀ s : String, s ∉ guarantor_document_sequence →
      get_next_guarantor_document s = some "id_card") := by
  refine ⟨?_, by decide, ?_, ?_⟩
  · intro occ
    rcases occ with _ | c
    · decide
    · cases c <;> decide
  · intro d occ hd
    unfold get_next_document
    rw [listIndex_eq_none_of_not_mem _ _ hd]
  · intro s hs
    unfold get_next_guarantor_document
    rw [listIndex_eq_none_of_not_mem _ _ hs]

/-- C9 amended, witnessed at concrete inputs. -/
theorem C9_amended_witness :
    (DocumentType.pnl ∉ tenant_base_sequence none ∧
      "xyz" ∉ guarantor_document_sequence) ∧
    (get_next_document DocumentType.pnl none = none ∧
      get_next_guarantor_document "xyz" = some "id_card") :=
  ⟨⟨by decide, by decide⟩,
    C9_amended.2.2.1 DocumentType.pnl none (by decide),
    C9_amended.2.2.2 "xyz" (by decide)⟩

/-- C10: a validated tenant upload whose current document lies
outside the computed document sequence makes the next-document
lookup return `None` instead of raising; the documents handler
treats this as end-of-sequence, transitions the conversation to
GUARANTOR_1 with `current_guarantor = 1` added to the context, and
clears no other context keys. -/
theorem C10_out_of_sequence_upload (d : DocumentType)
    (occ : Option OccupationClass) (vr : DocValidationOutcome)
    (ctx : PyDict) (hv : vr.is_valid = true)
    (hd : d ∉ tenant_base_sequence occ) :
    get_next_document d occ = none ∧
    process_document_upload d occ vr ctx =
      { newState := some (ConversationState.GUARANTOR_1,
          dictInsert ctx "current_guarantor" (PyVal.vInt 1)),
        response := "מעולה! כל המסמכים התקבלו ואושרו. עכשיו נצטרך מידע על הערבים.\n\nאנא שלח את השם ומספר הטלפון של הערב הראשון." } ∧
    (∀ k : String, k ≠ "current_guarantor" →
      dictLookup (dictInsert ctx "current_guarantor" (PyVal.vInt 1)) k =
        dictLookup ctx k) := by
  have hnone : get_next_document d occ = none := by
    unfold get_next_document
    rw [listIndex_eq_none_of_not_mem _ _ hd]
  refine ⟨hnone, ?_, fun k hk => dictInsert_lookup_ne ctx _ k _ hk⟩
  unfold process_document_upload
  rw [hv]
  simp [hnone]

/-- C10, witnessed: an upload validated as `pnl` while the computed
sequence (no occupation known) is
`[id_card, sephach, payslips, bank_statements]`. -/
theorem C10_out_of_sequence_upload_witness :
    ((⟨true, [], []⟩ : DocValidationOutcome).is_valid = true ∧
      DocumentType.pnl ∉ tenant_base_sequence none) ∧
    (get_next_document DocumentType.pnl none = none ∧
      process_document_upload DocumentType.pnl none ⟨true, [], []⟩
          [("tenant_id", PyVal.vStr "t1"),
           ("current_document", PyVal.vStr "pnl")] =
        { newState := some (ConversationState.GUARANTOR_1,
            dictInsert [("tenant_id", PyVal.vStr "t1"),
              ("current_document", PyVal.vStr "pnl")]
              "current_guarantor" (PyVal.vInt 1)),
          response := "מעולה! כל המסמכים התקבלו ואושרו. עכשיו נצטרך מידע על הערבים.\n\nאנא שלח את השם ומספר הטלפון של הערב הראשון." } ∧
      (∀ k : String, k ≠ "current_guarantor" →
        dictLookup (dictInsert [("tenant_id", PyVal.vStr "t1"),
            ("current_document", PyVal.vStr "pnl")]
            "current_guarantor" (PyVal.vInt 1)) k =
          dictLookup [("tenant_id", PyVal.vStr "t1"),
            ("current_document", PyVal.vStr "pnl")] k)) :=
  ⟨⟨rfl, by decide⟩,
    C10_out_of_sequence_upload DocumentType.pnl none ⟨true, [], []⟩
      [("tenant_id", PyVal.vStr "t1"),
       ("current_document", PyVal.vStr "pnl")] rfl (by decide)⟩

/-- C1 (code bug): when the second guarantor validates the last
document of its sequence (`pnl`), the documents handler marks the
guarantor COMPLETED and updates its status — but performs no fan-in
invocation at all, so the tenant's `whatsapp_status` is not set and
no tenant notification is emitted by this path.  Moreover the fan-in
coordinator itself, when invoked on an all-completed store, sends a
notification on every invocation (no once-only guard), so a
duplicate trigger would notify twice. -/
theorem C1_completion_branch_skips_fan_in :
    (handle_guarantor_documents true "pnl"
        [("all_documents_collected", PyVal.vBool true)]
        ⟨true, [], []⟩).effects =
      [GEffect.updateDocumentsStatus "pnl" "validated",
       GEffect.sendToGuarantor
         "מעולה! דוח רווח והפסד התקבל ואושר. כל המסמכים הושלמו בהצלחה!",
       GEffect.updateConversationState "COMPLETED"
         [("all_documents_collected", PyVal.vBool true)],
       GEffect.updateGuarantorStatus "completed"] ∧
    (∀ tid : String,
      GEffect.invokeFanIn tid ∉
        (handle_guarantor_documents true "pnl"
          [("all_documents_collected", PyVal.vBool true)]
          ⟨true, [], []⟩).effects) ∧
    (check_guarantor_completion twoCompletedGuarantors).1 = true ∧
    (check_all_guarantors_completed twoCompletedGuarantors
        true).tenantNotificationsSent +
      (check_all_guarantors_completed twoCompletedGuarantors
        true).tenantNotificationsSent = 2 := by
  refine ⟨by decide, ?_, by decide, by decide⟩
  intro tid h
  have he : (handle_guarantor_documents true "pnl"
      [("all_documents_collected", PyVal.vBool true)]
      ⟨true, [], []⟩).effects =
      [GEffect.updateDocumentsStatus "pnl" "validated",
       GEffect.sendToGuarantor
         "מעולה! דוח רווח והפסד התקבל ואושר. כל המסמכים הושלמו בהצלחה!",
       GEffect.updateConversationState "COMPLETED"
         [("all_documents_collected", PyVal.vBool true)],
       GEffect.updateGuarantorStatus "completed"] := by decide
  rw [he] at h
  simp at h

/-- C2 counterexample: the handler for state GUARANTOR_2, on a
successful guarantor creation, sets the tenant conversation state to
COMPLETED in the very step that initializes the new (second)
guarantor's own conversation to DOCUMENTS — i.e. while that
guarantor is still in progress, contradicting the claim that the
tenant reaches COMPLETED only after both guarantors reach their own
COMPLETED state. -/
theorem C2_counterexample :
    ((handle_guarantor_state 2 true "" "g2" false "Tenant T"
        [("tenant_id", PyVal.vStr "t1")]).newTenantState.map Prod.fst) =
      some ConversationState.COMPLETED ∧
    ((handle_guarantor_state 2 true "" "g2" false "Tenant T"
        [("tenant_id", PyVal.vStr "t1")]).guarantorConvInit.map Prod.fst) =
      some "DOCUMENTS" ∧
    ("DOCUMENTS" : String) ≠ "COMPLETED" := by
  refine ⟨by decide, by decide, by decide⟩

/-- C2 amended: the tenant's conversation state is set to COMPLETED
exactly upon the successful creation of guarantor slot 2 — at that
point both guarantor slots exist, but the second guarantor's own
conversation is only being initialized to DOCUMENTS (its documents
are not yet collected); slot 1 advances the tenant to GUARANTOR_2,
and a failed creation leaves the tenant state unchanged. -/
theorem C2_amended (errText gid tenant_name : String) (we : Bool)
    (ctx : PyDict) :
    (handle_guarantor_state 2 true errText gid we tenant_name
        ctx).newTenantState =
      some (ConversationState.COMPLETED,
        dictInsert (dictInsert ctx "guarantor2_id" (PyVal.vStr gid))
          "process_completed" (PyVal.vBool true)) ∧
    (handle_guarantor_state 2 true errText gid we tenant_name
        ctx).guarantorConvInit =
      some ("DOCUMENTS", [("current_document", PyVal.vStr "id_card"),
        ("tenant_name", PyVal.vStr tenant_name)]) ∧
    ((handle_guarantor_state 1 true errText gid we tenant_name
        ctx).newTenantState.map Prod.fst) =
      some ConversationState.GUARANTOR_2 ∧
    (handle_guarantor_state 2 false errText gid we tenant_name
        ctx).newTenantState = none := by
  refine ⟨?_, ?_, ?_, ?_⟩ <;> simp [handle_guarantor_state]

/-- C3 counterexample: a stale guarantor conversation (its
`last_message_time` is 0, far older than the 24-hour threshold at
`now = 1000000`) is routed to the guarantor flow exactly as stored —
no reset happens and the pre-timeout `context_data` (here
`current_document = payslips`) remains observable. -/
theorem C3_counterexample :
    handle_incoming_message_route true
      (some ⟨"DOCUMENTS", [("current_document", PyVal.vStr "payslips")],
        some 0⟩) none 24 1000000 =
      SessionRoute.guarantorFlow
        (some ⟨"DOCUMENTS", [("current_document", PyVal.vStr "payslips")],
          some 0⟩) ∧
    ((0 : Int) < 1000000 - 24 * 3600) ∧
    dictLookup [("current_document", PyVal.vStr "payslips")]
      "current_document" = some (PyVal.vStr "payslips") := by
  refine ⟨rfl, by decide, by decide⟩

/-- C3 amended: for every **tenant** inbound message whose
conversation is timed out, the session manager resets the
conversation before processing — the message is handled under a
fresh GREETING state with empty `context_data`, so no pre-reset
key/value is observable; guarantor messages, however, bypass the
timeout check entirely (see the counterexample). -/
theorem C3_amended (gstate : Option GuarantorConvState)
    (tstate : ConvState) (timeout_hours now : Int)
    (h : is_conversation_timed_out timeout_hours now tstate = true) :
    handle_incoming_message_route false gstate (some tstate)
        timeout_hours now =
      SessionRoute.tenantFlow (freshConversationState now) true ∧
    (freshConversationState now).context_data = [] ∧
    (freshConversationState now).current_state =
      ConversationState.GREETING ∧
    (∀ k : String, dictLookup (freshConversationState now).context_data
      k = none) := by
  refine ⟨?_, rfl, rfl, fun k => rfl⟩
  unfold handle_incoming_message_route
  simp [h]

/-- C3 amended, witnessed: a tenant conversation last touched at
time 0 with in-flight context, processed at `now = 86401` with the
default 24-hour timeout. -/
theorem C3_amended_witness :
    is_conversation_timed_out 24 86401
      ⟨ConversationState.DOCUMENTS,
        [("current_document", PyVal.vStr "payslips")], some 0⟩ = true ∧
    (handle_incoming_message_route false none
        (some ⟨ConversationState.DOCUMENTS,
          [("current_document", PyVal.vStr "payslips")], some 0⟩)
        24 86401 =
      SessionRoute.tenantFlow (freshConversationState 86401) true ∧
    (freshConversationState 86401).context_data = [] ∧
    (freshConversationState 86401).current_state =
      ConversationState.GREETING ∧
    (∀ k : String, dictLookup (freshConversationState 86401).context_data
      k = none)) :=
  ⟨by decide,
    C3_amended none
      ⟨ConversationState.DOCUMENTS,
        [("current_document", PyVal.vStr "payslips")], some 0⟩
      24 86401 (by decide)⟩

/-- C5 counterexample: a tenant upload rejected with the error
`Name doesn\x27t match expected name` leaves the state unchanged but
answers with a canned message that does not contain the adapter's
error text — the errors are not surfaced verbatim, refuting the
claim for tenant uploads. -/
theorem C5_counterexample :
    (process_document_upload DocumentType.id_card none
        ⟨false, ["Name doesn\x27t match expected name"], []⟩
        [("current_document", PyVal.vStr "id_card")]).newState = none ∧
    (process_document_upload DocumentType.id_card none
        ⟨false, ["Name doesn\x27t match expected name"], []⟩
        [("current_document", PyVal.vStr "id_card")]).response =
      "תעודת הזהות לא אושרה כי השם במסמך לא תואם לשם שלך במערכת.\n\nאנא וודא ששלחת את התעודת הזהות הנכונה.\n\nאם זה השם הנכון, אנא פנה לצוות התמיכה." ∧
    strContains
      "תעודת הזהות לא אושרה כי השם במסמך לא תואם לשם שלך במערכת.\n\nאנא וודא ששלחת את התעודת הזהות הנכונה.\n\nאם זה השם הנכון, אנא פנה לצוות התמיכה."
      "Name doesn\x27t match expected name" = false := by
  refine ⟨by decide, by decide, by decide⟩

/-- C5 amended: every rejected upload leaves the conversation state
unchanged and the guarantor handler surfaces errors and warnings
verbatim and re-requests the same document; the tenant handler also
leaves the state unchanged and, **when no error matches the special
name-mismatch / ID-number patterns**, surfaces the errors verbatim
and re-requests the same document — but it replaces specially
patterned errors with canned feedback and never surfaces warnings
(see the counterexample). -/
theorem C5_amended (cd : String) (gctx : PyDict)
    (errors warnings : List String) (d : DocumentType)
    (occ : Option OccupationClass) (tctx : PyDict) :
    ((handle_guarantor_documents true cd gctx
        ⟨false, errors, warnings⟩).effects = [] ∧
      (handle_guarantor_documents true cd gctx
        ⟨false, errors, warnings⟩).success = false ∧
      (∀ e ∈ errors, strContains (handle_guarantor_documents true cd gctx
        ⟨false, errors, warnings⟩).message e = true) ∧
      (∀ w ∈ warnings, strContains (handle_guarantor_documents true cd gctx
        ⟨false, errors, warnings⟩).message w = true) ∧
      strContains (handle_guarantor_documents true cd gctx
        ⟨false, errors, warnings⟩).message cd = true) ∧
    ((process_document_upload d occ ⟨false, errors, warnings⟩
        tctx).newState = none ∧
      ((∀ e ∈ errors, strContains e "doesn\x27t match expected" = false) →
       (∀ e ∈ errors, strContains e "ID number" = false) →
       (∀ e ∈ errors, strContains (process_document_upload d occ
          ⟨false, errors, warnings⟩ tctx).response e = true) ∧
       strContains (process_document_upload d occ
          ⟨false, errors, warnings⟩ tctx).response d.value = true)) := by
  have hg : handle_guarantor_documents true cd gctx
      ⟨false, errors, warnings⟩ =
      { effects := [], success := false,
        message := "המסמך לא אושר. " ++
          (if errors.isEmpty then "" else joinSpace errors) ++
          (if warnings.isEmpty then "" else " " ++ joinSpace warnings) ++
          " אנא שלח שוב את " ++ cd ++ "." } := by
    simp [handle_guarantor_documents]
  refine ⟨⟨by rw [hg], by rw [hg], ?_, ?_, ?_⟩, ?_, ?_⟩
  · intro e he
    rw [hg]
    have hne : errors.isEmpty = false := by
      cases errors with
      | nil => cases he
      | cons a as => rfl
    show strContains ("המסמך לא אושר. " ++
      (if errors.isEmpty then "" else joinSpace errors) ++
      (if warnings.isEmpty then "" else " " ++ joinSpace warnings) ++
      " אנא שלח שוב את " ++ cd ++ ".") e = true
    rw [hne]
    apply strContains_append_right
    apply strContains_append_right
    apply strContains_append_right
    apply strContains_append_right
    apply strContains_append_left
    rw [if_neg Bool.false_ne_true]
    exact strContains_joinSpace errors e he
  · intro w hw
    rw [hg]
    have hnw : warnings.isEmpty = false := by
      cases warnings with
      | nil => cases hw
      | cons a as => rfl
    show strContains ("המסמך לא אושר. " ++
      (if errors.isEmpty then "" else joinSpace errors) ++
      (if warnings.isEmpty then "" else " " ++ joinSpace warnings) ++
      " אנא שלח שוב את " ++ cd ++ ".") w = true
    rw [hnw]
    apply strContains_append_right
    apply strContains_append_right
    apply strContains_append_right
    apply strContains_append_left
    rw [if_neg Bool.false_ne_true]
    apply strContains_append_left
    exact strContains_joinSpace warnings w hw
  · rw [hg]
    show strContains ("המסמך לא אושר. " ++
      (if errors.isEmpty then "" else joinSpace errors) ++
      (if warnings.isEmpty then "" else " " ++ joinSpace warnings) ++
      " אנא שלח שוב את " ++ cd ++ ".") cd = true
    apply strContains_append_right
    apply strContains_append_left
    exact strContains_refl cd
  · show (process_document_upload d occ ⟨false, errors, warnings⟩
      tctx).newState = none
    unfold process_document_upload
    simp only [Bool.false_eq_true, if_false]
    split
    · rfl
    · split
      · rfl
      · rfl
  · intro h1 h2
    have hb1 : errors.any
        (fun e => strContains e "doesn\x27t match expected") = false := by
      rw [List.any_eq_false]
      intro e he
      simp [h1 e he]
    have hb2 : errors.any (fun e => strContains e "ID number") = false := by
      rw [List.any_eq_false]
      intro e he
      simp [h2 e he]
    have ht : process_document_upload d occ ⟨false, errors, warnings⟩
        tctx =
        { newState := none,
          response := "המסמך לא אושר. " ++ joinSpace errors ++
            "\n\nאנא שלח שוב את " ++ d.value ++ "." } := by
      unfold process_document_upload
      simp [hb1, hb2]
    constructor
    · intro e he
      rw [ht]
      show strContains ("המסמך לא אושר. " ++ joinSpace errors ++
        "\n\nאנא שלח שוב את " ++ d.value ++ ".") e = true
      apply strContains_append_right
      apply strContains_append_right
      apply strContains_append_right
      apply strContains_append_left
      exact strContains_joinSpace errors e he
    · rw [ht]
      show strContains ("המסמך לא אושר. " ++ joinSpace errors ++
        "\n\nאנא שלח שוב את " ++ d.value ++ ".") d.value = true
      apply strContains_append_right
      apply strContains_append_left
      exact strContains_refl d.value

/-- C5 amended, witnessed on the spec's scenario: a guarantor
ID_CARD rejection with errors `["name mismatch"]` (and a warning),
and a tenant rejection with a generic error. -/
theorem C5_amended_witness :
    ((handle_guarantor_documents true "id_card" []
        ⟨false, ["name mismatch"], ["w1"]⟩).effects = [] ∧
      (handle_guarantor_documents true "id_card" []
        ⟨false, ["name mismatch"], ["w1"]⟩).success = false ∧
      (∀ e ∈ ["name mismatch"],
        strContains (handle_guarantor_documents true "id_card" []
          ⟨false, ["name mismatch"], ["w1"]⟩).message e = true) ∧
      (∀ w ∈ ["w1"],
        strContains (handle_guarantor_documents true "id_card" []
          ⟨false, ["name mismatch"], ["w1"]⟩).message w = true) ∧
      strContains (handle_guarantor_documents true "id_card" []
        ⟨false, ["name mismatch"], ["w1"]⟩).message "id_card" = true) ∧
    ((process_document_upload DocumentType.id_card none
        ⟨false, ["name mismatch"], ["w1"]⟩ []).newState = none ∧
      ((∀ e ∈ ["name mismatch"],
          strContains e "doesn\x27t match expected" = false) →
       (∀ e ∈ ["name mismatch"], strContains e "ID number" = false) →
       (∀ e ∈ ["name mismatch"],
          strContains (process_document_upload DocumentType.id_card none
            ⟨false, ["name mismatch"], ["w1"]⟩ []).response e = true) ∧
       strContains (process_document_upload DocumentType.id_card none
          ⟨false, ["name mismatch"], ["w1"]⟩ []).response
          DocumentType.id_card.value = true)) :=
  C5_amended "id_card" [] ["name mismatch"] ["w1"] DocumentType.id_card
    none []

/-- C6 counterexample: a structured result whose single parsed field
is null but named `occupation` — the claim's condition ("its single
field is null") demands the fallback, yet the adapter trusts the
structured result unchanged (the smart check requires the single
null field to be named `confirmed`), and the returned value is not
the fallback's output. -/
theorem C6_counterexample :
    spec_fallback_condition trustedNullField.parsed_data = true ∧
    smart_check_triggers_fallback trustedNullField.parsed_data = false ∧
    call_vertex_ai_model (ModelReply.parsed trustedNullField) confPrompt =
      trustedNullField ∧
    validate_response_rules_fallback confPrompt ≠ trustedNullField := by
  refine ⟨by decide, by decide, by decide, by decide⟩

/-- C6 amended: the adapter trusts the external structured result
unless its `parsed_fields` is empty or consists of exactly one field
**named `confirmed`** whose value is null (a single null field under
any other name is trusted — see the counterexample), in which case
it invokes the deterministic rule-based fallback; for a confirmation
question (no occupation / family-status / children markers in the
prompt) the fallback yields `confirmed = true`, `confirmed = false`,
or no `confirmed` field at all (read back as null), decided by
keyword matching on the lowercased user response. -/
theorem C6_amended (r : ValidationResult) (prompt raw : String)
    (hx : extract_user_response prompt = some raw)
    (h1 : strContains prompt "occupation" = false)
    (h2 : strContains prompt "עיסוק" = false)
    (h3 : strContains prompt "family_status" = false)
    (h4 : strContains prompt "משפחתי" = false)
    (h5 : strContains prompt "number_of_children" = false)
    (h6 : strContains prompt "ילדים" = false) :
    (smart_check_triggers_fallback r.parsed_data = false →
      call_vertex_ai_model (ModelReply.parsed r) prompt = r) ∧
    (smart_check_triggers_fallback r.parsed_data = true →
      call_vertex_ai_model (ModelReply.parsed r) prompt =
        validate_response_rules_fallback prompt) ∧
    dictLookup (validate_response_rules_fallback prompt).parsed_data
        "confirmed" =
      (if confirmation_words.any
          (fun w => strContains (toLowerStr (pyStrip raw)) w) then
        some (PyVal.vBool true)
      else if rejection_words.any
          (fun w => strContains (toLowerStr (pyStrip raw)) w) then
        some (PyVal.vBool false)
      else none) := by
  refine ⟨?_, ?_, ?_⟩
  · intro hf
    simp [call_vertex_ai_model, hf]
  · intro hf
    simp [call_vertex_ai_model, hf]
  · unfold validate_response_rules_fallback
    rw [hx]
    simp only [h1, h2, h3, h4, h5, h6, Bool.or_self, Bool.false_eq_true,
      if_false]
    by_cases hc : confirmation_words.any
        (fun w => strContains (toLowerStr (pyStrip raw)) w) = true
    · rw [if_pos hc, if_pos hc]
      rfl
    · rw [if_neg hc, if_neg hc]
      by_cases hr : rejection_words.any
          (fun w => strContains (toLowerStr (pyStrip raw)) w) = true
      · rw [if_pos hr, if_pos hr]
        rfl
      · rw [if_neg hr, if_neg hr]
        show dictLookup [("extracted_info",
          PyVal.vStr ("user said: " ++ pyStrip raw))] "confirmed" = none
        rw [show dictLookup [("extracted_info",
            PyVal.vStr ("user said: " ++ pyStrip raw))] "confirmed" =
            if "extracted_info" = "confirmed" then
              some (PyVal.vStr ("user said: " ++ pyStrip raw))
            else none from rfl]
        rw [if_neg (by decide)]

/-- C6 amended, witnessed on a confirmation prompt with response
`yes` and a trusted structured result. -/
theorem C6_amended_witness :
    (extract_user_response confPrompt = some "yes" ∧
      strContains confPrompt "occupation" = false ∧
      strContains confPrompt "עיסוק" = false ∧
      strContains confPrompt "family_status" = false ∧
      strContains confPrompt "משפחתי" = false ∧
      strContains confPrompt "number_of_children" = false ∧
      strContains confPrompt "ילדים" = false) ∧
    ((smart_check_triggers_fallback trustedNullField.parsed_data = false →
      call_vertex_ai_model (ModelReply.parsed trustedNullField)
        confPrompt = trustedNullField) ∧
    (smart_check_triggers_fallback trustedNullField.parsed_data = true →
      call_vertex_ai_model (ModelReply.parsed trustedNullField)
        confPrompt = validate_response_rules_fallback confPrompt) ∧
    dictLookup (validate_response_rules_fallback
        confPrompt).parsed_data "confirmed" =
      (if confirmation_words.any
          (fun w => strContains (toLowerStr (pyStrip "yes")) w) then
        some (PyVal.vBool true)
      else if rejection_words.any
          (fun w => strContains (toLowerStr (pyStrip "yes")) w) then
        some (PyVal.vBool false)
      else none)) :=
  ⟨⟨by decide, by decide, by decide, by decide, by decide, by decide,
    by decide⟩,
    C6_amended trustedNullField confPrompt "yes" (by decide) (by decide)
      (by decide) (by decide) (by decide) (by decide) (by decide)⟩

theorem applyGuarantorUpdate_idem (h : GuarantorRec)
    (a b : String) (c : Option String) :
    applyGuarantorUpdate (applyGuarantorUpdate h a b c) a b c =
      applyGuarantorUpdate h a b c := by
  cases c <;> rfl

theorem applyGuarantorUpdate_id (h : GuarantorRec) (a b : String)
    (c : Option String) :
    (applyGuarantorUpdate h a b c).id = h.id := rfl

theorem updIf_idem (i a b : String) (c : Option String)
    (h : GuarantorRec) :
    updIf i a b c (updIf i a b c h) = updIf i a b c h := by
  unfold updIf
  by_cases hid : h.id = i
  · simp [hid, applyGuarantorUpdate_id, applyGuarantorUpdate_idem]
  · simp [hid]

theorem slotPred_updIf (t' : String) (n' : Int) (i a b : String)
    (c : Option String) (h : GuarantorRec) :
    slotPred t' n' (updIf i a b c h) = slotPred t' n' h := by
  unfold updIf
  by_cases hid : h.id = i
  · rw [if_pos hid]; rfl
  · rw [if_neg hid]

/-- The update path of `create_guarantor`, given the scan found a
matching record. -/
theorem create_guarantor_found (store : List GuarantorRec)
    (t : String) (n : Int) (name phone : String) (email : Option String)
    (fid : String) (g : GuarantorRec)
    (hscan : (get_guarantors_by_tenant store t).find?
      (fun g => g.guarantor_number = n) = some g) :
    create_guarantor store t n name phone email fid =
      { store := store.map (updIf g.id name phone email),
        success := true, guarantor_id := g.id, was_existing := true } := by
  unfold create_guarantor
  rw [hscan]
  rfl

/-- The insert path of `create_guarantor`, given the scan found no
matching record. -/
theorem create_guarantor_not_found (store : List GuarantorRec)
    (t : String) (n : Int) (name phone : String) (email : Option String)
    (fid : String)
    (hscan : (get_guarantors_by_tenant store t).find?
      (fun g => g.guarantor_number = n) = none) :
    create_guarantor store t n name phone email fid =
      { store := store ++ [freshGuarantor t n name phone email fid],
        success := true, guarantor_id := fid, was_existing := false } := by
  unfold create_guarantor
  rw [hscan]

/-- A found record is a member of the store and occupies the
scanned slot. -/
theorem scan_found_mem (store : List GuarantorRec) (t : String)
    (n : Int) (g : GuarantorRec)
    (hscan : (get_guarantors_by_tenant store t).find?
      (fun g => g.guarantor_number = n) = some g) :
    g ∈ store ∧ g.tenant_id = t ∧ g.guarantor_number = n := by
  have hmem := List.mem_of_find?_eq_some hscan
  have hnum := List.find?_some hscan
  unfold get_guarantors_by_tenant at hmem
  rcases List.mem_filter.mp hmem with ⟨hst, hten⟩
  exact ⟨hst, of_decide_eq_true hten, of_decide_eq_true hnum⟩

/-- A failed scan means no record of the store occupies the slot. -/
theorem scan_none_no_slot (store : List GuarantorRec) (t : String)
    (n : Int)
    (hscan : (get_guarantors_by_tenant store t).find?
      (fun g => g.guarantor_number = n) = none) :
    ∀ a ∈ store, slotPred t n a = false := by
  intro a ha
  by_contra hne
  have hp : slotPred t n a = true := by
    cases hsp : slotPred t n a
    · exact absurd hsp hne
    · rfl
  unfold slotPred at hp
  simp only [Bool.and_eq_true] at hp
  rcases hp with ⟨ht, hn⟩
  have hmemf : a ∈ get_guarantors_by_tenant store t := by
    unfold get_guarantors_by_tenant
    exact List.mem_filter.mpr ⟨ha, ht⟩
  exact absurd hn (List.find?_eq_none.mp hscan a hmemf)

/-- Counting helper: when every `p`-element is a `q`-element or an
`r`-element, the `p` count is bounded by the sum. -/
theorem countP_le_add_of_imp {α : Type} (l : List α) (p q r : α → Bool)
    (h : ∀ a ∈ l, p a = true → q a = true ∨ r a = true) :
    l.countP p ≤ l.countP q + l.countP r := by
  induction l with
  | nil => simp [List.countP_nil]
  | cons a as ih =>
    have ih' := ih (fun x hx hp => h x (List.mem_cons_of_mem a hx) hp)
    cases hpa : p a with
    | false =>
      cases hqa : q a <;> cases hra : r a <;>
        simp [List.countP_cons, hpa, hqa, hra] <;> omega
    | true =>
      cases hqa : q a with
      | true =>
        cases hra : r a <;>
          simp [List.countP_cons, hpa, hqa, hra] <;> omega
      | false =>
        cases hra : r a with
        | true =>
          simp [List.countP_cons, hpa, hqa, hra]
          omega
        | false =>
          rcases h a (List.mem_cons_self a as) hpa with hq | hr
          · rw [hqa] at hq; cases hq
          · rw [hra] at hr; cases hr

theorem updIf_id (i a b : String) (c : Option String) (h : GuarantorRec) :
    (updIf i a b c h).id = h.id := by
  unfold updIf; split <;> rfl

theorem updIf_tenant_id (i a b : String) (c : Option String)
    (h : GuarantorRec) :
    (updIf i a b c h).tenant_id = h.tenant_id := by
  unfold updIf; split <;> rfl

theorem updIf_guarantor_number (i a b : String) (c : Option String)
    (h : GuarantorRec) :
    (updIf i a b c h).guarantor_number = h.guarantor_number := by
  unfold updIf; split <;> rfl

theorem applyGuarantorUpdate_fresh (t : String) (n : Int)
    (name phone : String) (email : Option String) (fid : String) :
    applyGuarantorUpdate (freshGuarantor t n name phone email fid)
      name phone email = freshGuarantor t n name phone email fid := by
  cases email <;> rfl

/-- Lemma: `find?` over `filter` is `find?` of the conjunction. -/
theorem find_filter {α : Type} (l : List α) (p q : α → Bool) :
    (l.filter p).find? q = l.find? (fun a => p a && q a) := by
  induction l with
  | nil => rfl
  | cons a as ih =>
    rw [List.filter_cons]
    by_cases hp : p a = true
    · rw [if_pos hp]
      by_cases hq : q a = true
      · rw [List.find?_cons_of_pos as (by simp [hp, hq]),
          List.find?_cons_of_pos _ hq]
      · rw [List.find?_cons_of_neg as (by simp [hq]),
          List.find?_cons_of_neg _ hq, ih]
    · rw [if_neg hp, List.find?_cons_of_neg as (by simp [hp]), ih]

/-- A tenant with at most one guarantor per slot 1 and slot 2, all
of whose guarantors occupy slot 1 or 2, has at most 2 guarantors. -/
theorem per_tenant_le_two (s : List GuarantorRec) (t : String)
    (hnum : ∀ g ∈ s, g.tenant_id = t →
      g.guarantor_number = 1 ∨ g.guarantor_number = 2)
    (h1 : slotCount s t 1 ≤ 1) (h2 : slotCount s t 2 ≤ 1) :
    (get_guarantors_by_tenant s t).length ≤ 2 := by
  unfold get_guarantors_by_tenant
  rw [← List.countP_eq_length_filter]
  have hb := countP_le_add_of_imp s (fun g => decide (g.tenant_id = t))
    (slotPred t 1) (slotPred t 2) ?_
  · unfold slotCount at h1 h2
    omega
  · intro a ha hp
    have hat : a.tenant_id = t := of_decide_eq_true hp
    rcases hnum a ha hat with h | h
    · exact Or.inl (by unfold slotPred; simp [hat, h])
    · exact Or.inr (by unfold slotPred; simp [hat, h])

/-- C7: submitting guarantor details for a (tenant, guarantor_number)
pair that already exists updates the existing record in place rather
than creating a duplicate; repeating the same submission is
idempotent on the guarantor store; slot uniqueness (each
guarantor_number at most once per tenant) is preserved, and with
slots drawn from {1, 2}, at most 2 guarantors exist per tenant. -/
theorem C7_guarantor_upsert (store : List GuarantorRec) (t : String)
    (n : Int) (name phone : String) (email : Option String)
    (fid : String) (hfid : fid ∉ store.map GuarantorRec.id) :
    ((∃ g ∈ store, g.tenant_id = t ∧ g.guarantor_number = n) →
      (create_guarantor store t n name phone email fid).store.length =
        store.length ∧
      (create_guarantor store t n name phone email fid).was_existing =
        true) ∧
    (create_guarantor
        (create_guarantor store t n name phone email fid).store
        t n name phone email fid).store =
      (create_guarantor store t n name phone email fid).store ∧
    (∀ (t' : String) (n' : Int), slotCount store t' n' ≤ 1 →
      slotCount (create_guarantor store t n name phone email fid).store
        t' n' ≤ 1) ∧
    ((∀ g ∈ store, g.tenant_id = t →
        g.guarantor_number = 1 ∨ g.guarantor_number = 2) →
      (∀ n' : Int, slotCount store t n' ≤ 1) →
      (n = 1 ∨ n = 2) →
      (get_guarantors_by_tenant
        (create_guarantor store t n name phone email fid).store
        t).length ≤ 2) := by
  cases hscan : (get_guarantors_by_tenant store t).find?
      (fun g => g.guarantor_number = n) with
  | some g =>
    have hC := create_guarantor_found store t n name phone email fid g
      hscan
    obtain ⟨hgmem, hgt, hgn⟩ := scan_found_mem store t n g hscan
    have hcomp : (slotPred t n ∘ updIf g.id name phone email) =
        slotPred t n :=
      funext (fun h => slotPred_updIf t n g.id name phone email h)
    -- scan of the updated store finds the updated record
    have hmap : (store.map (updIf g.id name phone email)).find?
        (slotPred t n) = some (updIf g.id name phone email g) := by
      rw [List.find?_map, hcomp]
      have hscan' : store.find? (slotPred t n) = some g := by
        have := hscan
        unfold get_guarantors_by_tenant at this
        rw [find_filter] at this
        exact this
      rw [hscan']
      rfl
    have hscan2 : (get_guarantors_by_tenant
        (store.map (updIf g.id name phone email)) t).find?
        (fun g => g.guarantor_number = n) =
        some (updIf g.id name phone email g) := by
      unfold get_guarantors_by_tenant
      rw [find_filter]
      exact hmap
    have hii : (create_guarantor
        (create_guarantor store t n name phone email fid).store
        t n name phone email fid).store =
        (create_guarantor store t n name phone email fid).store := by
      rw [hC]
      have hC2 := create_guarantor_found
        (store.map (updIf g.id name phone email)) t n name phone email
        fid (updIf g.id name phone email g) hscan2
      rw [hC2]
      show (store.map (updIf g.id name phone email)).map
          (updIf (updIf g.id name phone email g).id name phone email) =
        store.map (updIf g.id name phone email)
      rw [updIf_id, List.map_map]
      exact List.map_congr_left
        (fun a _ => updIf_idem g.id name phone email a)
    have hiii : ∀ (t' : String) (n' : Int), slotCount store t' n' ≤ 1 →
        slotCount (create_guarantor store t n name phone email
          fid).store t' n' ≤ 1 := by
      intro t' n' hle
      rw [hC]
      show (store.map (updIf g.id name phone email)).countP
        (slotPred t' n') ≤ 1
      have hcomp' : (slotPred t' n' ∘ updIf g.id name phone email) =
          slotPred t' n' :=
        funext (fun h => slotPred_updIf t' n' g.id name phone email h)
      rw [List.countP_map, hcomp']
      exact hle
    refine ⟨fun _ => ?_, hii, hiii, ?_⟩
    · rw [hC]
      exact ⟨by simp, rfl⟩
    · intro hnum huniq _
      have hnum' : ∀ g' ∈ (create_guarantor store t n name phone email
          fid).store, g'.tenant_id = t →
          g'.guarantor_number = 1 ∨ g'.guarantor_number = 2 := by
        rw [hC]
        intro g' hg' hg't
        rcases List.mem_map.mp hg' with ⟨a, ha, rfl⟩
        rw [updIf_guarantor_number]
        rw [updIf_tenant_id] at hg't
        exact hnum a ha hg't
      exact per_tenant_le_two _ t hnum' (hiii t 1 (huniq 1))
        (hiii t 2 (huniq 2))
  | none =>
    have hC := create_guarantor_not_found store t n name phone email fid
      hscan
    have hno := scan_none_no_slot store t n hscan
    have hfreshslot : slotPred t n
        (freshGuarantor t n name phone email fid) = true := by
      unfold slotPred freshGuarantor
      simp
    have hscan2 : (get_guarantors_by_tenant
        (store ++ [freshGuarantor t n name phone email fid]) t).find?
        (fun g => g.guarantor_number = n) =
        some (freshGuarantor t n name phone email fid) := by
      unfold get_guarantors_by_tenant
      rw [find_filter, List.find?_append]
      have h0 : store.find? (fun a =>
          decide (a.tenant_id = t) && decide (a.guarantor_number = n)) =
          none := by
        have := hscan
        unfold get_guarantors_by_tenant at this
        rw [find_filter] at this
        exact this
      rw [h0]
      rw [List.find?_cons_of_pos _ (by exact hfreshslot)]
      rfl
    have hii : (create_guarantor
        (create_guarantor store t n name phone email fid).store
        t n name phone email fid).store =
        (create_guarantor store t n name phone email fid).store := by
      rw [hC]
      have hC2 := create_guarantor_found
        (store ++ [freshGuarantor t n name phone email fid]) t n name
        phone email fid (freshGuarantor t n name phone email fid) hscan2
      rw [hC2]
      show (store ++ [freshGuarantor t n name phone email fid]).map
          (updIf fid name phone email) =
        store ++ [freshGuarantor t n name phone email fid]
      have : ∀ a ∈ store ++ [freshGuarantor t n name phone email fid],
          updIf fid name phone email a = a := by
        intro a ha
        rcases List.mem_append.mp ha with ha' | ha'
        · have hne : a.id ≠ fid := by
            intro he
            exact hfid (he ▸ List.mem_map_of_mem GuarantorRec.id ha')
          unfold updIf
          rw [if_neg hne]
        · rcases List.mem_singleton.mp ha' with rfl
          unfold updIf
          rw [if_pos
            (show (freshGuarantor t n name phone email fid).id = fid from
              rfl)]
          exact applyGuarantorUpdate_fresh t n name phone email fid
      calc (store ++ [freshGuarantor t n name phone email fid]).map
            (updIf fid name phone email)
          = (store ++ [freshGuarantor t n name phone email fid]).map
              id := List.map_congr_left (fun a ha => this a ha)
        _ = store ++ [freshGuarantor t n name phone email fid] :=
            List.map_id _
    have hiii : ∀ (t' : String) (n' : Int), slotCount store t' n' ≤ 1 →
        slotCount (create_guarantor store t n name phone email
          fid).store t' n' ≤ 1 := by
      intro t' n' hle
      rw [hC]
      show (store ++ [freshGuarantor t n name phone email fid]).countP
        (slotPred t' n') ≤ 1
      rw [List.countP_append]
      by_cases hslot : slotPred t' n'
          (freshGuarantor t n name phone email fid) = true
      · have ht' : t = t' := by
          unfold slotPred freshGuarantor at hslot
          simp only [Bool.and_eq_true, decide_eq_true_eq] at hslot
          exact hslot.1
        have hn' : n = n' := by
          unfold slotPred freshGuarantor at hslot
          simp only [Bool.and_eq_true, decide_eq_true_eq] at hslot
          exact hslot.2
        subst ht'
        subst hn'
        have hz : store.countP (slotPred t n) = 0 :=
          List.countP_eq_zero.mpr
            (fun a ha => by rw [hno a ha]; exact Bool.false_ne_true)
        rw [hz]
        simp [List.countP_cons, hslot]
      · have hone : ([freshGuarantor t n name phone email fid]).countP
            (slotPred t' n') = 0 := by
          simp only [List.countP_cons, List.countP_nil]
          cases hsp : slotPred t' n'
              (freshGuarantor t n name phone email fid)
          · simp
          · exact absurd hsp hslot
        rw [hone]
        unfold slotCount at hle
        omega
    refine ⟨?_, hii, hiii, ?_⟩
    · intro hex
      exfalso
      obtain ⟨g0, hg0, hg0t, hg0n⟩ := hex
      have htru : slotPred t n g0 = true := by
        unfold slotPred
        simp [hg0t, hg0n]
      rw [hno g0 hg0] at htru
      exact Bool.false_ne_true htru
    · intro hnum huniq hn12
      have hnum' : ∀ g' ∈ (create_guarantor store t n name phone email
          fid).store, g'.tenant_id = t →
          g'.guarantor_number = 1 ∨ g'.guarantor_number = 2 := by
        rw [hC]
        intro g' hg' hg't
        rcases List.mem_append.mp hg' with ha' | ha'
        · exact hnum g' ha' hg't
        · rcases List.mem_singleton.mp ha' with rfl
          exact hn12
      exact per_tenant_le_two _ t hnum' (hiii t 1 (huniq 1))
        (hiii t 2 (huniq 2))

/-- C7, witnessed: re-submitting guarantor 1 of tenant `t1` against
a store already holding that slot. -/
theorem C7_guarantor_upsert_witness :
    ("gX" ∉ witnessStore.map GuarantorRec.id) ∧
    (((∃ g ∈ witnessStore, g.tenant_id = "t1" ∧ g.guarantor_number = 1) →
      (create_guarantor witnessStore "t1" 1 "Alicia" "p9" none
        "gX").store.length = witnessStore.length ∧
      (create_guarantor witnessStore "t1" 1 "Alicia" "p9" none
        "gX").was_existing = true) ∧
    (create_guarantor
        (create_guarantor witnessStore "t1" 1 "Alicia" "p9" none
          "gX").store "t1" 1 "Alicia" "p9" none "gX").store =
      (create_guarantor witnessStore "t1" 1 "Alicia" "p9" none
        "gX").store ∧
    (∀ (t' : String) (n' : Int), slotCount witnessStore t' n' ≤ 1 →
      slotCount (create_guarantor witnessStore "t1" 1 "Alicia" "p9" none
        "gX").store t' n' ≤ 1) ∧
    ((∀ g ∈ witnessStore, g.tenant_id = "t1" →
        g.guarantor_number = 1 ∨ g.guarantor_number = 2) →
      (∀ n' : Int, slotCount witnessStore "t1" n' ≤ 1) →
      ((1 : Int) = 1 ∨ (1 : Int) = 2) →
      (get_guarantors_by_tenant
        (create_guarantor witnessStore "t1" 1 "Alicia" "p9" none
          "gX").store "t1").length ≤ 2)) :=
  ⟨by decide,
    C7_guarantor_upsert witnessStore "t1" 1 "Alicia" "p9" none "gX"
      (by decide)⟩

end RentBot
